import Mathlib

/-!
Shallow embedding of gdrive-linux (src/drive_config.py and src/drived.py).

Python strings are modelled as Lean `String`, with the string primitives the
source uses (startswith, endswith, slicing, upper, join) defined at the
character-list level; Python dictionaries are association lists.  The
filesystem and the remote session are abstracted to the data the code
observes about them (entry kinds, attempt outcomes), and side effects are
returned as explicit event lists.
-/

namespace Drive

/-- Python str.startswith: prefix test on the character sequence. -/
def pyStartsWith (s pre : String) : Bool := pre.data.isPrefixOf s.data

/-- Python str.endswith: suffix test on the character sequence. -/
def pyEndsWith (s suf : String) : Bool := suf.data.isSuffixOf s.data

/-- Python s[n:]: drop the first n characters. -/
def pyDrop (s : String) (n : Nat) : String := ⟨s.data.drop n⟩

/-- Python len(s). -/
def pyLen (s : String) : Nat := s.data.length

/-- Python str.upper, per character (all uses are ASCII: log-level names and
y/n answers). -/
def pyToUpper (s : String) : String := ⟨s.data.map Char.toUpper⟩

/-- Python sep.join(list). -/
def pyJoin (sep : String) : List String → String
  | [] => ""
  | [x] => x
  | x :: xs => x ++ sep ++ pyJoin sep xs

/-- posixpath.join for two components, as os.path.join behaves on POSIX:
an absolute second component discards the first. -/
def osJoin (a b : String) : String :=
  if pyStartsWith b "/" then b
  else if a = "" ∨ pyEndsWith a "/" then a ++ b
  else a ++ "/" ++ b

/-- posixpath.isabs. -/
def osIsAbs (p : String) : Bool := pyStartsWith p "/"

/-- A value in the configuration dict: a raw string, or — for the excludes
option as built by loadConfig from a file — a list of strings. -/
inductive ConfigValue
  | str (s : String)
  | list (l : List String)
deriving DecidableEq

/-- The in-memory configuration dict self._config: section → option → value. -/
abbrev Config := List (String × List (String × ConfigValue))

/-- Dict lookup self._config[sec][opt]; `none` models a KeyError. -/
def lookup2 (cfg : Config) (sec opt : String) : Option ConfigValue :=
  (cfg.lookup sec).bind (fun opts => opts.lookup opt)

/-- One character of the stored excludes value, as seen by
csv.reader(value, skipinitialspace=True) in loadConfig: iterating a Python
str yields its characters, so the CSV reader receives each character as a
separate one-character input line.  ',' is a line of two empty fields; ' '
is skipped as initial space, leaving one empty field; CR/LF yield no
fields; any other character is a one-character field.  (The values handled
here never contain a double quote, whose multi-line quoting behaviour this
per-line model does not reproduce.) -/
def csvCharRow (c : Char) : List String :=
  if c = ',' then ["", ""]
  else if c = ' ' then [""]
  else if c = '\n' ∨ c = '\r' ∨ c = '"' then []
  else [String.mk [c]]

/-- DriveConfig.loadConfig, excludes branch: run the stored value through
the CSV reader character-by-character and append every non-empty field. -/
def parseExcludes (s : String) : List String :=
  ((s.data.map csvCharRow).flatten).filter (fun f => f != "")

/-- DriveConfig.saveConfig, excludes branch: a truthy (non-empty) list is
joined with ", "; a falsy value is stored as the empty string. -/
def serializeExcludes (l : List String) : String :=
  if l = [] then "" else pyJoin ", " l

/-- The persisted configuration store, abstracted to the raw option value
strings per section (the INI file syntax itself is external plumbing). -/
abbrev Store := List (String × List (String × String))

/-- loadConfig option handling: excludes is parsed via the CSV reader,
every other option is copied verbatim. -/
def parseOption (opt v : String) : ConfigValue :=
  if opt = "excludes" then ConfigValue.list (parseExcludes v) else ConfigValue.str v

/-- Insertion step of sorting the section list by name (models Python
list.sort on the section names). -/
def insertSorted (x : String × List (String × String)) :
    List (String × List (String × String)) → List (String × List (String × String))
  | [] => [x]
  | y :: ys => if x.1 ≤ y.1 then x :: y :: ys else y :: insertSorted x ys

/-- Sort the sections of a store by name. -/
def sortSections : List (String × List (String × String)) → List (String × List (String × String))
  | [] => []
  | x :: xs => insertSorted x (sortSections xs)

/-- DriveConfig.loadConfig, file-exists branch: process sections in sorted
order, copying options and parsing excludes. -/
def parseStore (s : Store) : Config :=
  (sortSections s).map (fun sec => (sec.1, sec.2.map (fun ov => (ov.1, parseOption ov.1 ov.2))))

/-- DriveConfig.CONFIG_DEFAULTS, as installed by defaultConfig: note the
excludes default is the raw string "", not a list. -/
def defaultConfig : Config :=
  [("localstore", [("path", ConfigValue.str "")]),
   ("general", [("excludes", ConfigValue.str "")]),
   ("logging", [("level", ConfigValue.str "NONE")])]

/-- DriveConfig.loadConfig, given the persisted store when the file exists.
Returns the resulting configuration and the number of saveConfig calls the
load triggers (one when falling back to the defaults, none otherwise). -/
def loadConfig (store : Option Store) : Config × Nat :=
  match store with
  | some s => (parseStore s, 0)
  | none => (defaultConfig, 1)

/-- DriveConfig.getLocalRoot. -/
def getLocalRoot (cfg : Config) : Option ConfigValue := lookup2 cfg "localstore" "path"

/-- DriveConfig.getExcludes. -/
def getExcludes (cfg : Config) : Option ConfigValue := lookup2 cfg "general" "excludes"

/-- Observable side effects of the configuration methods. -/
inductive Effect
  | logError (msg : String)
  | save
deriving DecidableEq

/-- DriveConfig.setLocalRoot: the mutation of self._config is commented out
in the source; the method logs an error and calls saveConfig. -/
def setLocalRoot (cfg : Config) (path : String) : Config × List Effect :=
  (cfg, [Effect.logError "Setting local root is not yet implemented!", Effect.save])

/-- DriveConfig.setExcludes: likewise no mutation; it logs an error (the
source reuses the setLocalRoot message) and calls saveConfig. -/
def setExcludes (cfg : Config) (exclist : List String) : Config × List Effect :=
  (cfg, [Effect.logError "Setting local root is not yet implemented!", Effect.save])

/-- The module-level _LOG_LEVELS table: level name → logging severity
constant (logging.DEBUG = 10, INFO = 20, WARNING = 30, ERROR = 40,
CRITICAL = FATAL = 50), with NONE → Python None; the outer `none` models a
KeyError for a missing key. -/
def logLevels (s : String) : Option (Option Nat) :=
  if s = "NONE" then some none
  else if s = "DEBUG" then some (some 10)
  else if s = "INFO" then some (some 20)
  else if s = "WARNING" then some (some 30)
  else if s = "ERROR" then some (some 40)
  else if s = "CRITICAL" then some (some 50)
  else if s = "FATAL" then some (some 50)
  else none

/-- The keys of _LOG_LEVELS. -/
def levelNames : List String :=
  ["NONE", "DEBUG", "INFO", "WARNING", "ERROR", "CRITICAL", "FATAL"]

/-- DriveConfig.getLogLevel: read logging.level, falling back to the
default "NONE" on a KeyError; uppercase it; look it up in _LOG_LEVELS,
returning Python None (no logging) on a KeyError there.  The outer `none`
models the uncaught AttributeError were the stored value a list. -/
def getLogLevel (cfg : Config) : Option (Option Nat) :=
  match lookup2 cfg "logging" "level" with
  | some (ConfigValue.str s) => some ((logLevels (pyToUpper s)).getD none)
  | some (ConfigValue.list _) => none
  | none => some ((logLevels (pyToUpper "NONE")).getD none)

/-- DriveConfig.getLocalPath, with the configured root
(self.getLocalRoot()) passed explicitly. -/
def getLocalPath (root path : String) : String :=
  if path = "/" then root
  else if pyStartsWith path root then path
  else osJoin root (if osIsAbs path then pyDrop path 1 else path)

/-- DriveConfig.getRemotePath, with the configured root passed
explicitly. -/
def getRemotePath (root path : String) : String :=
  if pyStartsWith path root then pyDrop path (pyLen root) else path

/-- Kind of filesystem entry present at a path. -/
inductive FsEntry
  | file
  | dir
deriving DecidableEq

/-- The local filesystem, abstracted to the entry kind at each path. -/
abbrev FileSys := List (String × FsEntry)

/-- The destructive filesystem operations the guard performs. -/
inductive FsOp
  | remove (p : String)
  | rmtree (p : String)
  | mkdir (p : String)
  | chmod (p : String) (mode : Nat)
deriving DecidableEq

/-- DriveConfig.checkLocalFile; `answer` is what raw_input would return if
the prompt were reached.  Returns (safe to write, operations performed). -/
def checkLocalFile (fs : FileSys) (answer path : String) (overwrite : Bool) :
    Bool × List FsOp :=
  match fs.lookup path with
  | none => (true, [])
  | some FsEntry.dir => (false, [])
  | some FsEntry.file =>
    if !overwrite && pyToUpper answer != "Y" then (false, [])
    else (true, [FsOp.remove path])

/-- DriveConfig.checkLocalFolder: in the source the rmtree/mkdir/chmod(755)
sequence sits inside the `not overwrite` branch, after an affirmative
answer; with overwrite true an existing folder is left untouched. -/
def checkLocalFolder (fs : FileSys) (answer path : String) (overwrite : Bool) :
    Bool × List FsOp :=
  match fs.lookup path with
  | none => (true, [FsOp.mkdir path])
  | some FsEntry.file => (false, [])
  | some FsEntry.dir =>
    if !overwrite then
      if pyToUpper answer != "Y" then (false, [])
      else (true, [FsOp.rmtree path, FsOp.mkdir path, FsOp.chmod path 0o755])
    else (true, [])

/-- drived.py UPDATE_INTERVAL (seconds). -/
def UPDATE_INTERVAL : Nat := 30

/-- drived.py RETRY_INTERVAL (seconds). -/
def RETRY_INTERVAL : Nat := 60

/-- Outcome of one session.update attempt: a normal return, a gdata.client
Error (the recoverable class), or any other exception. -/
inductive SyncOutcome
  | success
  | recoverableError
  | fatalError
deriving DecidableEq

/-- What one iteration of the daemon loop does after its attempt. -/
inductive LoopAction
  | continueAfter (sleepSecs : Nat)
  | terminate
deriving DecidableEq

/-- One iteration of DriveDaemon.run's while-loop: try/except around
session.update. -/
def syncStep : SyncOutcome → LoopAction
  | SyncOutcome.success => LoopAction.continueAfter UPDATE_INTERVAL
  | SyncOutcome.recoverableError => LoopAction.continueAfter RETRY_INTERVAL
  | SyncOutcome.fatalError => LoopAction.terminate

/-- DriveDaemon.run over a trace of attempt outcomes: the (outcome, action)
pairs of the attempts actually issued; the loop stops after the first
terminate action (the `break`). -/
def runLoop : List SyncOutcome → List (SyncOutcome × LoopAction)
  | [] => []
  | o :: rest =>
    match syncStep o with
    | LoopAction.terminate => [(o, LoopAction.terminate)]
    | LoopAction.continueAfter t => (o, LoopAction.continueAfter t) :: runLoop rest

/-- Whether a configuration value is the list form. -/
def valueIsList : ConfigValue → Bool
  | ConfigValue.list _ => true
  | ConfigValue.str _ => false

/-- Every excludes option present in the configuration holds a list. -/
def excludesAreLists (cfg : Config) : Bool :=
  cfg.all (fun sec => sec.2.all (fun ov => ov.1 != "excludes" || valueIsList ov.2))

/-- A configuration whose only content is a stored logging.level value. -/
def cfgLevel (s : String) : Config := [("logging", [("level", ConfigValue.str s)])]

theorem str_ext {s t : String} (h : s.data = t.data) : s = t := by
  cases s
  cases t
  exact congrArg String.mk h

theorem pyStartsWith_append (a b : String) : pyStartsWith (a ++ b) a = true := by
  simp [pyStartsWith, List.isPrefixOf_iff_prefix]

theorem pyDrop_append (a b : String) : pyDrop (a ++ b) (pyLen a) = b := by
  show String.mk ((a.data ++ b.data).drop a.data.length) = b
  rw [List.drop_left]

theorem slash_append_ne_slash {rest : String} (h : rest ≠ "") : ("/" ++ rest) ≠ "/" := by
  intro he
  apply h
  apply str_ext
  have hd : ('/' :: rest.data) = ['/'] := congrArg String.data he
  exact (List.cons.injEq _ _ _ _ ▸ hd).2

theorem getLogLevel_cfgLevel (s : String) :
    getLogLevel (cfgLevel s) = some ((logLevels (pyToUpper s)).getD none) := rfl

theorem logLevels_eq_none_of_not_mem (s : String) (h : s ∉ levelNames) :
    logLevels s = none := by
  have h1 : ¬(s = "NONE") := fun he => h (by rw [he]; decide)
  have h2 : ¬(s = "DEBUG") := fun he => h (by rw [he]; decide)
  have h3 : ¬(s = "INFO") := fun he => h (by rw [he]; decide)
  have h4 : ¬(s = "WARNING") := fun he => h (by rw [he]; decide)
  have h5 : ¬(s = "ERROR") := fun he => h (by rw [he]; decide)
  have h6 : ¬(s = "CRITICAL") := fun he => h (by rw [he]; decide)
  have h7 : ¬(s = "FATAL") := fun he => h (by rw [he]; decide)
  simp [logLevels, h1, h2, h3, h4, h5, h6, h7]

/-- C1: the claimed round-trip fails on the code as stated: with root "/a",
the local path "/a/a/b" lies strictly inside the root, yet
getLocalPath(getRemotePath("/a/a/b")) = "/a/b" — the stripped remainder
"/a/b" itself starts with the root, so getLocalPath returns it unchanged. -/
theorem C1_counterexample :
    pyStartsWith "/a/a/b" ("/a" ++ "/") = true ∧ ("/a/a/b" : String) ≠ "/a" ∧
    getRemotePath "/a" "/a/a/b" = "/a/b" ∧
    getLocalPath "/a" (getRemotePath "/a" "/a/a/b") ≠ "/a/a/b" := by decide

/-- C1 (amended): the round-trips hold once the paths avoid prefix
collisions with the root: for a non-empty root with no trailing separator,
getLocalPath(getRemotePath(p)) = p for every local p = root ++ "/" ++ rest
whose remote image "/" ++ rest does not itself start with the root (and
rest is non-empty and adds no second leading slash); and
getRemotePath(getLocalPath(p)) = p for every absolute remote p other than
"/" that does not start with the root or with a double slash. -/
theorem C1_roundTrip_amended :
    (∀ root rest : String, root ≠ "" → pyEndsWith root "/" = false → rest ≠ "" →
      pyStartsWith rest "/" = false → pyStartsWith ("/" ++ rest) root = false →
      getLocalPath root (getRemotePath root (root ++ "/" ++ rest)) = root ++ "/" ++ rest) ∧
    (∀ root p : String, root ≠ "" → pyEndsWith root "/" = false →
      osIsAbs p = true → p ≠ "/" → pyStartsWith (pyDrop p 1) "/" = false →
      pyStartsWith p root = false →
      getRemotePath root (getLocalPath root p) = p) := by
  constructor
  · intro root rest hroot hends hrest hrs hsr
    have h1 : pyStartsWith (root ++ "/" ++ rest) root = true := by
      rw [String.append_assoc]
      exact pyStartsWith_append root ("/" ++ rest)
    have h2 : pyDrop (root ++ "/" ++ rest) (pyLen root) = "/" ++ rest := by
      rw [String.append_assoc]
      exact pyDrop_append root ("/" ++ rest)
    have hrp : getRemotePath root (root ++ "/" ++ rest) = "/" ++ rest := by
      simp [getRemotePath, h1, h2]
    rw [hrp]
    have hne : ("/" ++ rest) ≠ "/" := slash_append_ne_slash hrest
    have habs : osIsAbs ("/" ++ rest) = true := pyStartsWith_append "/" rest
    have hdrop : pyDrop ("/" ++ rest) 1 = rest := pyDrop_append "/" rest
    simp [getLocalPath, hne, hsr, habs, hdrop, osJoin, hrs, hroot, hends]
  · intro root p hroot hends habs hne hds hpr
    have hsp : "/" ++ pyDrop p 1 = p := by
      apply str_ext
      have hpd : ['/'].isPrefixOf p.data = true := habs
      cases hq : p.data with
      | nil => rw [hq] at hpd; simp at hpd
      | cons c cs =>
        rw [hq] at hpd
        simp [List.isPrefixOf] at hpd
        subst hpd
        show ('/' :: p.data.drop 1) = '/' :: cs
        rw [hq]
        rfl
    have hloc : getLocalPath root p = root ++ "/" ++ pyDrop p 1 := by
      simp [getLocalPath, hne, hpr, habs, osJoin, hds, hroot, hends]
    have h1 : pyStartsWith (root ++ "/" ++ pyDrop p 1) root = true := by
      rw [String.append_assoc]
      exact pyStartsWith_append root ("/" ++ pyDrop p 1)
    have h2 : pyDrop (root ++ "/" ++ pyDrop p 1) (pyLen root) = "/" ++ pyDrop p 1 := by
      rw [String.append_assoc]
      exact pyDrop_append root ("/" ++ pyDrop p 1)
    rw [hloc]
    simp [getRemotePath, h1, h2, hsp]

/-- C1 witness: both amended round-trips evaluated at root "/gd" and a
concrete path under it. -/
theorem C1_roundTrip_witness :
    getLocalPath "/gd" (getRemotePath "/gd" ("/gd" ++ "/" ++ "docs/x")) = "/gd" ++ "/" ++ "docs/x" ∧
    getRemotePath "/gd" (getLocalPath "/gd" "/docs/x") = "/docs/x" := by
  constructor
  · exact C1_roundTrip_amended.1 "/gd" "docs/x" (by decide) (by decide) (by decide)
      (by decide) (by decide)
  · exact C1_roundTrip_amended.2 "/gd" "/docs/x" (by decide) (by decide) (by decide)
      (by decide) (by decide) (by decide)

/-- C2: the advertised round-trips of ["a", "b", "c"] and of the empty list
do hold, but only because those entries are single characters: loadConfig
feeds the stored string itself to csv.reader, which iterates it
character-by-character, so the multi-character list ["ab", "cd"] is saved
as "ab, cd" and loaded back as ["a", "b", "c", "d"] — not comma-separated
parsing. -/
theorem C2_excludes_eval :
    parseExcludes (serializeExcludes ["a", "b", "c"]) = ["a", "b", "c"] ∧
    parseExcludes (serializeExcludes []) = [] ∧
    serializeExcludes ["ab", "cd"] = "ab, cd" ∧
    parseExcludes (serializeExcludes ["ab", "cd"]) = ["a", "b", "c", "d"] ∧
    ["a", "b", "c", "d"] ≠ ["ab", "cd"] := by decide

/-- C3: each loop iteration takes exactly one of the three transitions: a
successful update sleeps the 30-second update interval and continues; a
recoverable remote-API error sleeps the distinct 60-second retry interval
and continues — any number of consecutive recoverable errors never
terminates the loop; any other error terminates the loop with no further
attempt. -/
theorem C3_syncLoop :
    syncStep SyncOutcome.success = LoopAction.continueAfter UPDATE_INTERVAL ∧
    syncStep SyncOutcome.recoverableError = LoopAction.continueAfter RETRY_INTERVAL ∧
    syncStep SyncOutcome.fatalError = LoopAction.terminate ∧
    UPDATE_INTERVAL = 30 ∧ RETRY_INTERVAL = 60 ∧ UPDATE_INTERVAL ≠ RETRY_INTERVAL ∧
    (∀ tr : List SyncOutcome,
      runLoop (SyncOutcome.success :: tr)
        = (SyncOutcome.success, LoopAction.continueAfter UPDATE_INTERVAL) :: runLoop tr) ∧
    (∀ (n : Nat) (tr : List SyncOutcome),
      runLoop (List.replicate n SyncOutcome.recoverableError ++ tr)
        = List.replicate n (SyncOutcome.recoverableError, LoopAction.continueAfter RETRY_INTERVAL)
            ++ runLoop tr) ∧
    (∀ tr : List SyncOutcome,
      runLoop (SyncOutcome.fatalError :: tr) = [(SyncOutcome.fatalError, LoopAction.terminate)]) := by
  refine ⟨rfl, rfl, rfl, rfl, rfl, by decide, fun tr => rfl, ?_, fun tr => rfl⟩
  intro n
  induction n with
  | zero => intro tr; simp
  | succ k ih =>
    intro tr
    simp [List.replicate_succ, runLoop, syncStep, ih tr]

/-- C4: the claim holds for files but not for folders: with overwrite true,
checkLocalFolder on an existing directory reports safe to write without
removing or recreating anything — the rmtree/mkdir/chmod sequence sits in
the interactive (overwrite false) branch. -/
theorem C4_counterexample :
    checkLocalFolder [("d", FsEntry.dir)] "N" "d" true = (true, []) ∧
    FsOp.rmtree "d" ∉ (checkLocalFolder [("d", FsEntry.dir)] "N" "d" true).2 ∧
    FsOp.chmod "d" 0o755 ∉ (checkLocalFolder [("d", FsEntry.dir)] "N" "d" true).2 := by decide

/-- C4 (amended): for an existing file, checkLocalFile(path, overwrite=true)
removes it and reports safe to write; for an existing directory,
checkLocalFolder(path, overwrite=true) reports safe to write while leaving
it untouched, and the recursive removal and recreation with
owner-rwx/group-rx/other-rx permissions happens only when overwrite is
false and the interactive answer is affirmative. -/
theorem C4_overwrite_amended :
    ∀ (fs : FileSys) (answer path : String),
      (fs.lookup path = some FsEntry.file →
        checkLocalFile fs answer path true = (true, [FsOp.remove path])) ∧
      (fs.lookup path = some FsEntry.dir →
        checkLocalFolder fs answer path true = (true, []) ∧
        (pyToUpper answer = "Y" →
          checkLocalFolder fs answer path false
            = (true, [FsOp.rmtree path, FsOp.mkdir path, FsOp.chmod path 0o755]))) := by
  intro fs answer path
  constructor
  · intro h
    simp [checkLocalFile, h]
  · intro h
    constructor
    · simp [checkLocalFolder, h]
    · intro hy
      simp [checkLocalFolder, h, hy]

/-- C4 witness: the amended behavior at one-entry filesystems. -/
theorem C4_overwrite_witness :
    checkLocalFile [("f", FsEntry.file)] "N" "f" true = (true, [FsOp.remove "f"]) ∧
    checkLocalFolder [("d", FsEntry.dir)] "x" "d" true = (true, []) ∧
    checkLocalFolder [("d", FsEntry.dir)] "y" "d" false
      = (true, [FsOp.rmtree "d", FsOp.mkdir "d", FsOp.chmod "d" 0o755]) :=
  ⟨(C4_overwrite_amended [("f", FsEntry.file)] "N" "f").1 (by decide),
    ((C4_overwrite_amended [("d", FsEntry.dir)] "x" "d").2 (by decide)).1,
    ((C4_overwrite_amended [("d", FsEntry.dir)] "y" "d").2 (by decide)).2 (by decide)⟩

/-- C5: setLocalRoot and setExcludes return the configuration unchanged
(getLocalRoot and getExcludes observe the same values), log an error, and
unconditionally attempt a save. -/
theorem C5_setters_frame :
    ∀ (cfg : Config) (path : String) (exclist : List String),
      setLocalRoot cfg path
        = (cfg, [Effect.logError "Setting local root is not yet implemented!", Effect.save]) ∧
      setExcludes cfg exclist
        = (cfg, [Effect.logError "Setting local root is not yet implemented!", Effect.save]) ∧
      getLocalRoot (setLocalRoot cfg path).1 = getLocalRoot cfg ∧
      getExcludes (setLocalRoot cfg path).1 = getExcludes cfg ∧
      getLocalRoot (setExcludes cfg exclist).1 = getLocalRoot cfg ∧
      getExcludes (setExcludes cfg exclist).1 = getExcludes cfg :=
  fun _ _ _ => ⟨rfl, rfl, rfl, rfl, rfl, rfl⟩

/-- C6: the claim fails as stated because getLogLevel uppercases the stored
value first: "debug" is outside the enumerated (uppercase) set yet maps to
the DEBUG constant 10, not to no-logging. -/
theorem C6_counterexample :
    getLogLevel (cfgLevel "debug") = some (some 10) ∧
    "debug" ∉ levelNames ∧
    (some (some 10) : Option (Option Nat)) ≠ some none := by decide

/-- C6 (amended): getLogLevel maps each enumerated level name to its
severity constant (NONE to no logging, CRITICAL and FATAL both to 50),
returns no logging exactly for the strings whose uppercase form lies
outside the enumerated set, and falls back to the default "NONE" when the
logging.level key is absent. -/
theorem C6_logLevel_amended :
    (getLogLevel (cfgLevel "NONE") = some none ∧
     getLogLevel (cfgLevel "DEBUG") = some (some 10) ∧
     getLogLevel (cfgLevel "INFO") = some (some 20) ∧
     getLogLevel (cfgLevel "WARNING") = some (some 30) ∧
     getLogLevel (cfgLevel "ERROR") = some (some 40) ∧
     getLogLevel (cfgLevel "CRITICAL") = some (some 50) ∧
     getLogLevel (cfgLevel "FATAL") = some (some 50)) ∧
    (∀ s : String, pyToUpper s ∉ levelNames → getLogLevel (cfgLevel s) = some none) ∧
    (∀ cfg : Config, lookup2 cfg "logging" "level" = none → getLogLevel cfg = some none) := by
  refine ⟨by decide, ?_, ?_⟩
  · intro s hs
    rw [getLogLevel_cfgLevel, logLevels_eq_none_of_not_mem _ hs]
    rfl
  · intro cfg h
    have hv : getLogLevel cfg = some ((logLevels (pyToUpper "NONE")).getD none) := by
      unfold getLogLevel
      rw [h]
    rw [hv]
    rfl

/-- C6 witness: a bogus level maps to no logging, and an empty
configuration falls back to the NONE default. -/
theorem C6_logLevel_witness :
    getLogLevel (cfgLevel "BOGUS") = some none ∧ getLogLevel [] = some none :=
  ⟨C6_logLevel_amended.2.1 "BOGUS" (by decide), C6_logLevel_amended.2.2 [] rfl⟩

/-- C7: for a non-empty root, getLocalPath returns the root for "/",
returns a path already starting with the root unchanged, and otherwise
joins onto the root after stripping a single leading separator if the path
is absolute. -/
theorem C7_getLocalPath_cases :
    ∀ root p : String, root ≠ "" →
      (p = "/" → getLocalPath root p = root) ∧
      (p ≠ "/" → pyStartsWith p root = true → getLocalPath root p = p) ∧
      (p ≠ "/" → pyStartsWith p root = false →
        getLocalPath root p = osJoin root (if osIsAbs p then pyDrop p 1 else p)) := by
  intro root p _
  refine ⟨fun h => by simp [getLocalPath, h], fun h hs => by simp [getLocalPath, h, hs],
    fun h hs => by simp [getLocalPath, h, hs]⟩

/-- C7 witness: the three cases at root "/r". -/
theorem C7_getLocalPath_witness :
    getLocalPath "/r" "/" = "/r" ∧ getLocalPath "/r" "/r/x" = "/r/x" ∧
    getLocalPath "/r" "/docs/x"
      = osJoin "/r" (if osIsAbs "/docs/x" then pyDrop "/docs/x" 1 else "/docs/x") :=
  ⟨(C7_getLocalPath_cases "/r" "/" (by decide)).1 rfl,
    (C7_getLocalPath_cases "/r" "/r/x" (by decide)).2.1 (by decide) (by decide),
    (C7_getLocalPath_cases "/r" "/docs/x" (by decide)).2.2 (by decide) (by decide)⟩

/-- C8: with no persisted store, loadConfig installs the built-in defaults
(empty root, empty excludes string, level NONE) and triggers exactly one
save; with a store present it parses the store and triggers none. -/
theorem C8_loadConfig_bootstrap :
    loadConfig none = (defaultConfig, 1) ∧
    getLocalRoot defaultConfig = some (ConfigValue.str "") ∧
    getExcludes defaultConfig = some (ConfigValue.str "") ∧
    lookup2 defaultConfig "logging" "level" = some (ConfigValue.str "NONE") ∧
    (∀ s : Store, loadConfig (some s) = (parseStore s, 0)) :=
  ⟨rfl, by decide, by decide, by decide, fun _ => rfl⟩

/-- C9: right after the default bootstrap, getExcludes yields the raw
string "" and not a list, while every configuration parsed from a store
holds a list under every excludes option. -/
theorem C9_defaultExcludes_str :
    getExcludes defaultConfig = some (ConfigValue.str "") ∧
    valueIsList (ConfigValue.str "") = false ∧
    (∀ s : Store, excludesAreLists (parseStore s) = true) := by
  refine ⟨by decide, rfl, ?_⟩
  intro s
  unfold excludesAreLists parseStore
  rw [List.all_eq_true]
  intro sec hsec
  rw [List.mem_map] at hsec
  obtain ⟨sec0, _, rfl⟩ := hsec
  rw [List.all_eq_true]
  intro ov hov
  rw [List.mem_map] at hov
  obtain ⟨ov0, _, rfl⟩ := hov
  by_cases h : ov0.1 = "excludes"
  · simp [h, parseOption, valueIsList]
  · simp [h, parseOption, valueIsList]

/-- C10: with the root unset (empty string), getRemotePath is the identity
on every path, and getLocalPath returns every path unchanged except "/",
which maps to the empty string. -/
theorem C10_emptyRoot :
    ∀ p : String, getRemotePath "" p = p ∧ getLocalPath "" "/" = "" ∧
      (p ≠ "/" → getLocalPath "" p = p) := by
  intro p
  have hsw : pyStartsWith p "" = true := List.isPrefixOf_nil_left
  refine ⟨?_, rfl, ?_⟩
  · have : getRemotePath "" p = pyDrop p (pyLen "") := by simp [getRemotePath, hsw]
    rw [this]
    rfl
  · intro h
    simp [getLocalPath, h, hsw]

/-- C10 witness: identity behavior at "/x/y" and the single exception "/". -/
theorem C10_emptyRoot_witness :
    getRemotePath "" "/x/y" = "/x/y" ∧ getLocalPath "" "/" = "" ∧
    getLocalPath "" "/x/y" = "/x/y" :=
  ⟨(C10_emptyRoot "/x/y").1, (C10_emptyRoot "/x/y").2.1, (C10_emptyRoot "/x/y").2.2 (by decide)⟩

end Drive
